import Mathlib

/-!
Shallow embedding of the `systemctl` Python package: the `SystemCtl` class
from `systemctl/__init__.py` together with the constants it uses from
`systemctl/constants/DSystemCtl.py`.

The external world (the `subprocess.run` call) is modelled by an explicit
`ExecOutcome` argument: each operation that would invoke the external
`systemctl` binary takes the outcome of that invocation as a parameter.
Python exceptions (`ValueError(DMsg.NO_SERVICE_NAME)`) are modelled with
`Except String`.  The regular-expression searches of `_update_status` are
embedded as executable character-list functions that follow the semantics of
the concrete patterns used in the source (`re.search`, `re.MULTILINE`).
-/

namespace SystemCtlSpec

/-- `DMsg.NO_SERVICE_NAME` from `constants/DSystemCtl.py`. -/
def NO_SERVICE_NAME : String := "service name not specified"

/-- `DMsg.NOT_FOUND` from `constants/DSystemCtl.py`. -/
def NOT_FOUND : String := "could not be found"

/-- `DMsg.TIMEOUT` from `constants/DSystemCtl.py`. -/
def TIMEOUT_MSG : String := "systemctl timed out"

/-- `TIMEOUT` (the default timeout, in seconds) from `constants/DSystemCtl.py`. -/
def DEFAULT_TIMEOUT : Nat := 10

/-- `ExitCode.ERROR` from `systemctl/__init__.py`. -/
def ERROR_CODE : Int := 5

/-- Python `\s` on the ASCII range: space, tab, newline, carriage return,
vertical tab, form feed. -/
def isPySpace (c : Char) : Bool :=
  c = ' ' || c = '\t' || c = '\n' || c = '\r' || c = Char.ofNat 11 || c = Char.ofNat 12

/-- Match a literal character sequence at the head of the input; on success
return the remaining input. -/
def matchLit : List Char → List Char → Option (List Char)
  | [], cs => some cs
  | _ :: _, [] => none
  | l :: ls, c :: cs => if l = c then matchLit ls cs else none

/-- Does `needle` occur as a contiguous segment of `hay`?  (Python substring
containment, `needle in hay`.) -/
def hasSeg (needle : List Char) : List Char → Bool
  | [] => (matchLit needle []).isSome
  | c :: cs => (matchLit needle (c :: cs)).isSome || hasSeg needle cs

/-- Python `needle in hay` on strings. -/
def strContains (needle hay : String) : Bool :=
  hasSeg needle.toList hay.toList

/-- Try `p` at every position that immediately follows a newline character. -/
def searchAfterNewlines (p : List Char → Bool) : List Char → Bool
  | [] => false
  | c :: cs => (c = '\n' && p cs) || searchAfterNewlines p cs

/-- `re.search` with `re.MULTILINE` for a `^`-anchored pattern: try `p` at the
start of the string and after every newline. -/
def searchMultiline (p : List Char → Bool) (cs : List Char) : Bool :=
  p cs || searchAfterNewlines p cs

/-- Try the capturing matcher `f` at every position that immediately follows a
newline, in left-to-right order, returning the first capture. -/
def findAfterNewlines (f : List Char → Option Nat) : List Char → Option Nat
  | [] => none
  | c :: cs =>
    if c = '\n' then
      match f cs with
      | some n => some n
      | none => findAfterNewlines f cs
    else findAfterNewlines f cs

/-- `re.search` with `re.MULTILINE` for a `^`-anchored capturing pattern:
leftmost match wins. -/
def findMultiline (f : List Char → Option Nat) (cs : List Char) : Option Nat :=
  match f cs with
  | some n => some n
  | none => findAfterNewlines f cs

/-- Try `p` at every position of the string (plain `re.search`, no anchor). -/
def searchAnywhere (p : List Char → Bool) : List Char → Bool
  | [] => p []
  | c :: cs => p (c :: cs) || searchAnywhere p cs

/-- Matcher for `\s*Active:\s+active \(running\).*` at the current position
(the leading `^` is supplied by `searchMultiline`).  The trailing `.*` always
matches and is dropped.  Both whitespace runs are deterministic: the character
after each run is not itself whitespace, so greedy matching needs no
backtracking. -/
def matchActiveRunningAt (cs : List Char) : Bool :=
  match matchLit "Active:".toList (cs.dropWhile isPySpace) with
  | none => false
  | some rest =>
    match rest with
    | [] => false
    | c :: _ =>
      isPySpace c && (matchLit "active (running)".toList (rest.dropWhile isPySpace)).isSome

/-- `re.search(r"^\s*Active:\s+active \(running\).*", stdout, re.MULTILINE)`. -/
def searchActiveRunning (cs : List Char) : Bool :=
  searchMultiline matchActiveRunningAt cs

/-- Matcher for `\s*Main PID:.*\(code=exited\).*` at the current position.
`.` does not match a newline, so `(code=exited)` must occur between
`Main PID:` and the end of that line. -/
def matchMainPidExitedAt (cs : List Char) : Bool :=
  match matchLit "Main PID:".toList (cs.dropWhile isPySpace) with
  | none => false
  | some rest => hasSeg "(code=exited)".toList (rest.takeWhile (fun c => c ≠ '\n'))

/-- `re.search(r"^\s*Main PID:.*\(code=exited\).*", stdout, re.MULTILINE)`. -/
def searchMainPidExited (cs : List Char) : Bool :=
  searchMultiline matchMainPidExitedAt cs

/-- Matcher for `\s*Active:\s+inactive \(dead\).*` at the current position. -/
def matchInactiveDeadAt (cs : List Char) : Bool :=
  match matchLit "Active:".toList (cs.dropWhile isPySpace) with
  | none => false
  | some rest =>
    match rest with
    | [] => false
    | c :: _ =>
      isPySpace c && (matchLit "inactive (dead)".toList (rest.dropWhile isPySpace)).isSome

/-- `re.search(r"^\s*Active:\s+inactive \(dead\).*", stdout, re.MULTILINE)`. -/
def searchInactiveDead (cs : List Char) : Bool :=
  searchMultiline matchInactiveDeadAt cs

/-- Matcher for `Loaded: .*; enabled;` at the current position: `Loaded: `
followed, later on the same line, by `; enabled;`. -/
def matchLoadedEnabledAt (cs : List Char) : Bool :=
  match matchLit "Loaded: ".toList cs with
  | none => false
  | some rest => hasSeg "; enabled;".toList (rest.takeWhile (fun c => c ≠ '\n'))

/-- `re.search(r"Loaded: .*; enabled;", stdout)`. -/
def searchLoadedEnabled (cs : List Char) : Bool :=
  searchAnywhere matchLoadedEnabledAt cs

/-- Matcher for `Loaded: .*; disabled;` at the current position. -/
def matchLoadedDisabledAt (cs : List Char) : Bool :=
  match matchLit "Loaded: ".toList cs with
  | none => false
  | some rest => hasSeg "; disabled;".toList (rest.takeWhile (fun c => c ≠ '\n'))

/-- `re.search(r"Loaded: .*; disabled;", stdout)`. -/
def searchLoadedDisabled (cs : List Char) : Bool :=
  searchAnywhere matchLoadedDisabledAt cs

/-- Numeric value of a list of decimal digits (`int` applied to a `\d+`
capture). -/
def digitsToNat (ds : List Char) : Nat :=
  ds.foldl (fun n c => 10 * n + (c.toNat - 48)) 0

/-- Capturing matcher for `\s*Main PID:\s+(\d+)` at the current position:
returns the integer captured by the greedy digit run. -/
def matchMainPidNumAt (cs : List Char) : Option Nat :=
  match matchLit "Main PID:".toList (cs.dropWhile isPySpace) with
  | none => none
  | some rest =>
    match rest with
    | [] => none
    | c :: _ =>
      if isPySpace c then
        let ds := (rest.dropWhile isPySpace).takeWhile Char.isDigit
        if ds.isEmpty then none else some (digitsToNat ds)
      else none

/-- `re.search(r"^\s*Main PID:\s+(\d+)", stdout, re.MULTILINE)` with its first
capture group converted by `int`. -/
def findMainPidNum (cs : List Char) : Option Nat :=
  findMultiline matchMainPidNumAt cs

/-- The `self.result` dictionary of a `SystemCtl` instance:
`DResult.ACTIVE`, `DResult.PID`, `DResult.ENABLED`, `DResult.RAW_STDOUT`,
`DResult.RAW_STDERR`.  A Python `None` entry is `none`. -/
structure Result where
  active : Option Bool
  pid : Option Nat
  enabled : Option Bool
  rawStdout : String
  rawStderr : String
deriving DecidableEq, Repr

/-- The state of a `SystemCtl` instance: `self._service_name` (which may be
Python `None`), `self._timeout`, and `self.result`. -/
structure SystemCtl where
  serviceName : Option String
  timeoutSecs : Nat
  result : Result
deriving DecidableEq, Repr

/-- The `self.result` value built in `SystemCtl.__init__` before the first
refresh. -/
def initResult : Result :=
  { active := none, pid := none, enabled := none, rawStdout := "", rawStderr := "" }

/-- Python truthiness of `self._service_name`: `not self._service_name` is
true exactly when the name is `None` or the empty string. -/
def hasName (s : SystemCtl) : Bool :=
  match s.serviceName with
  | none => false
  | some n => !(n == "")

/-- Python truthiness of the `service_name` argument of
`SystemCtl.service_name`. -/
def truthyName : Option String → Bool
  | none => false
  | some n => !(n == "")

/-- The subcommand argument of `_run_systemctl` (`DSystemCtl.*`). -/
inductive Arg where
  | status
  | start
  | stop
  | restart
  | enable
  | disable
deriving DecidableEq, Repr

/-- Outcome of one `subprocess.run` invocation: normal completion with decoded
stdout, decoded stderr and return code; `subprocess.TimeoutExpired`; or any
other `Exception` (carrying `str(e)`). -/
inductive ExecOutcome where
  | success (stdout stderr : String) (returncode : Int)
  | timeout
  | failure (msg : String)
deriving DecidableEq, Repr

/-- Effect of the `try`/`except` block of `_run_systemctl` on `self.result`,
paired with the value returned: on success the decoded streams are stored and
the process's return code is returned; on `TimeoutExpired` stdout is cleared,
stderr is set to `DMsg.TIMEOUT` and `ExitCode.ERROR` is returned; on any other
exception stdout is cleared, stderr is set to `str(e)` and `ExitCode.ERROR` is
returned. -/
def execEffect (r : Result) : ExecOutcome → Result × Int
  | ExecOutcome.success so se rc => ({ r with rawStdout := so, rawStderr := se }, rc)
  | ExecOutcome.timeout => ({ r with rawStdout := "", rawStderr := TIMEOUT_MSG }, ERROR_CODE)
  | ExecOutcome.failure msg => ({ r with rawStdout := "", rawStderr := msg }, ERROR_CODE)

/-- The `# Check for active state` chain of `_update_status`: three alternated
`if`/`elif` branches; when none matches the previous value is kept. -/
def decideActive (prev : Option Bool) (cs : List Char) : Option Bool :=
  if searchActiveRunning cs then some true
  else if searchMainPidExited cs then some false
  else if searchInactiveDead cs then some false
  else prev

/-- The `# Check for enabled state` chain of `_update_status`. -/
def decideEnabled (prev : Option Bool) (cs : List Char) : Option Bool :=
  if searchLoadedEnabled cs then some true
  else if searchLoadedDisabled cs then some false
  else prev

/-- The `# Get PID` step of `_update_status`: the pid is stored only when the
pattern matched and `self.result[DResult.ACTIVE]` (already updated by the
active chain) is truthy, i.e. `some true`. -/
def decidePid (prev : Option Nat) (newActive : Option Bool) (cs : List Char) : Option Nat :=
  match findMainPidNum cs with
  | some n => if newActive = some true then some n else prev
  | none => prev

/-- The parsing part of `_update_status`, applied to `self.result` after the
status invocation stored its streams: the `DMsg.NOT_FOUND` short-circuit,
then the active, enabled and pid steps. -/
def parseStatus (r : Result) : Result :=
  if strContains NOT_FOUND r.rawStderr then
    { r with active := none, pid := none, enabled := none }
  else
    { r with
      active := decideActive r.active r.rawStdout.toList
      enabled := decideEnabled r.enabled r.rawStdout.toList
      pid := decidePid r.pid (decideActive r.active r.rawStdout.toList) r.rawStdout.toList }

/-- `SystemCtl._update_status`: raises `ValueError(DMsg.NO_SERVICE_NAME)` when
no (truthy) service name is set; otherwise runs `systemctl status <name>`
(outcome `out`), stores its streams, and re-parses the record.  The return
code of the status invocation is ignored by the source. -/
def updateStatus (s : SystemCtl) (out : ExecOutcome) : Except String SystemCtl :=
  if hasName s then
    Except.ok { s with result := parseStatus (execEffect s.result out).1 }
  else Except.error NO_SERVICE_NAME

/-- `SystemCtl._run_systemctl`: stores the invocation's streams per
`execEffect` and returns its code; after a *successful* `enable` or `disable`
it additionally re-runs `_update_status` (whose status invocation has outcome
`followUp`).  On timeout or failure it returns `ExitCode.ERROR` immediately,
with no follow-up refresh. -/
def runSystemctl (s : SystemCtl) (arg : Arg) (out followUp : ExecOutcome) :
    Except String (SystemCtl × Int) :=
  let (r1, code) := execEffect s.result out
  let s1 : SystemCtl := { s with result := r1 }
  match out with
  | ExecOutcome.success _ _ _ =>
    if arg = Arg.enable || arg = Arg.disable then
      (updateStatus s1 followUp).map (fun s2 => (s2, code))
    else Except.ok (s1, code)
  | _ => Except.ok (s1, code)

/-- `SystemCtl.__init__`: sets up the initial result record, stores the name
and the default timeout, and immediately calls `_update_status` (which raises
when the name is `None` or empty). -/
def construct (name : Option String) (out : ExecOutcome) : Except String SystemCtl :=
  updateStatus { serviceName := name, timeoutSecs := DEFAULT_TIMEOUT, result := initResult } out

/-- `SystemCtl.start`. -/
def start (s : SystemCtl) (out : ExecOutcome) : Except String (SystemCtl × Int) :=
  if hasName s then runSystemctl s Arg.start out out
  else Except.error NO_SERVICE_NAME

/-- `SystemCtl.stop`. -/
def stop (s : SystemCtl) (out : ExecOutcome) : Except String (SystemCtl × Int) :=
  if hasName s then runSystemctl s Arg.stop out out
  else Except.error NO_SERVICE_NAME

/-- `SystemCtl.restart`. -/
def restart (s : SystemCtl) (out : ExecOutcome) : Except String (SystemCtl × Int) :=
  if hasName s then runSystemctl s Arg.restart out out
  else Except.error NO_SERVICE_NAME

/-- `SystemCtl.enable`: `out` is the `sudo systemctl enable <name>` outcome,
`followUp` the outcome of the status query of the follow-up refresh. -/
def enable (s : SystemCtl) (out followUp : ExecOutcome) : Except String (SystemCtl × Int) :=
  if hasName s then runSystemctl s Arg.enable out followUp
  else Except.error NO_SERVICE_NAME

/-- `SystemCtl.disable`. -/
def disable (s : SystemCtl) (out followUp : ExecOutcome) : Except String (SystemCtl × Int) :=
  if hasName s then runSystemctl s Arg.disable out followUp
  else Except.error NO_SERVICE_NAME

/-- `SystemCtl.running`: forces a refresh, then returns the `ACTIVE` field. -/
def running (s : SystemCtl) (out : ExecOutcome) :
    Except String (SystemCtl × Option Bool) :=
  (updateStatus s out).map (fun s1 => (s1, s1.result.active))

/-- `SystemCtl.enabled`: returns the cached `ENABLED` field, no refresh. -/
def enabled (s : SystemCtl) : Option Bool :=
  s.result.enabled

/-- `SystemCtl.pid`: returns the cached `PID` field. -/
def pid (s : SystemCtl) : Option Nat :=
  s.result.pid

/-- `SystemCtl.stdout`. -/
def stdout (s : SystemCtl) : String :=
  s.result.rawStdout

/-- `SystemCtl.stderr`. -/
def stderr (s : SystemCtl) : String :=
  s.result.rawStderr

/-- `SystemCtl.installed`: `not self.stderr()`, i.e. the last captured stderr
is empty. -/
def installed (s : SystemCtl) : Bool :=
  stderr s == ""

/-- `SystemCtl.service_name`: get/set accessor.  A truthy argument is stored;
if it differs from the old name a refresh is triggered.  The method returns
`self._service_name` as it stands at the end of the call. -/
def service_name (s : SystemCtl) (name : Option String) (out : ExecOutcome) :
    Except String (SystemCtl × Option String) :=
  let old := s.serviceName
  if truthyName name then
    let s1 : SystemCtl := { s with serviceName := name }
    if name ≠ old then
      (updateStatus s1 out).map (fun s2 => (s2, s2.serviceName))
    else Except.ok (s1, s1.serviceName)
  else Except.ok (s, s.serviceName)

/-- `SystemCtl.timeout`: get/set accessor (`if timeout is not None`). -/
def timeout (s : SystemCtl) (t : Option Nat) : SystemCtl × Nat :=
  match t with
  | some v => ({ s with timeoutSecs := v }, v)
  | none => (s, s.timeoutSecs)

/-- States of a `SystemCtl` instance reachable through its public interface:
a successful construction followed by any sequence of successful public
operations, with the external invocation outcomes chosen arbitrarily. -/
inductive Reachable : SystemCtl → Prop where
  | constructed {name out s} (h : construct name out = Except.ok s) : Reachable s
  | ranRunning {s out s' b} (hs : Reachable s)
      (h : running s out = Except.ok (s', b)) : Reachable s'
  | setName {s n out s' r} (hs : Reachable s)
      (h : service_name s n out = Except.ok (s', r)) : Reachable s'
  | ranStart {s out s' c} (hs : Reachable s)
      (h : start s out = Except.ok (s', c)) : Reachable s'
  | ranStop {s out s' c} (hs : Reachable s)
      (h : stop s out = Except.ok (s', c)) : Reachable s'
  | ranRestart {s out s' c} (hs : Reachable s)
      (h : restart s out = Except.ok (s', c)) : Reachable s'
  | ranEnable {s out f s' c} (hs : Reachable s)
      (h : enable s out f = Except.ok (s', c)) : Reachable s'
  | ranDisable {s out f s' c} (hs : Reachable s)
      (h : disable s out f = Except.ok (s', c)) : Reachable s'
  | setTimeout {s} (t : Option Nat) (hs : Reachable s) : Reachable (timeout s t).1

/-! ### Helper lemmas -/

/-- `execEffect` never touches the `ACTIVE` field. -/
theorem execEffect_active (r : Result) (out : ExecOutcome) :
    ((execEffect r out).1).active = r.active := by
  cases out <;> rfl

/-- `execEffect` never touches the `PID` field. -/
theorem execEffect_pid (r : Result) (out : ExecOutcome) :
    ((execEffect r out).1).pid = r.pid := by
  cases out <;> rfl

/-- `execEffect` never touches the `ENABLED` field. -/
theorem execEffect_enabled (r : Result) (out : ExecOutcome) :
    ((execEffect r out).1).enabled = r.enabled := by
  cases out <;> rfl

/-- With a (truthy) service name set, `_update_status` completes normally. -/
theorem updateStatus_ok_of_hasName (s : SystemCtl) (out : ExecOutcome)
    (h : hasName s = true) :
    updateStatus s out
      = Except.ok { s with result := parseStatus (execEffect s.result out).1 } := by
  simp [updateStatus, h]

/-- The parsing step never touches the captured stdout. -/
theorem parseStatus_rawStdout (r : Result) : (parseStatus r).rawStdout = r.rawStdout := by
  unfold parseStatus
  split <;> rfl

/-- The parsing step never touches the captured stderr. -/
theorem parseStatus_rawStderr (r : Result) : (parseStatus r).rawStderr = r.rawStderr := by
  unfold parseStatus
  split <;> rfl

/-- If the parsing step ends with a present pid that differs from the previous
one, the pid was assigned by the `# Get PID` step, which requires the freshly
decided active value to be `some true`. -/
theorem parseStatus_pid_new (r : Result)
    (hsome : (parseStatus r).pid.isSome = true)
    (hchg : (parseStatus r).pid ≠ r.pid) :
    (parseStatus r).active = some true := by
  cases hb : strContains NOT_FOUND r.rawStderr with
  | true => simp [parseStatus, hb] at hsome
  | false =>
    have hpid : (parseStatus r).pid
        = decidePid r.pid (decideActive r.active r.rawStdout.toList) r.rawStdout.toList := by
      rw [parseStatus, if_neg (by simp [hb])]
    have hact : (parseStatus r).active = decideActive r.active r.rawStdout.toList := by
      rw [parseStatus, if_neg (by simp [hb])]
    rw [hpid] at hchg
    rw [hact]
    unfold decidePid at hchg
    cases hm : findMainPidNum r.rawStdout.toList with
    | none => rw [hm] at hchg; exact absurd rfl hchg
    | some k =>
      rw [hm] at hchg
      simp only [ne_eq, ite_eq_right_iff, not_forall] at hchg
      exact hchg.1

/-! ### Claim theorems -/

/-- C1: when the captured stderr of a status refresh contains
`"could not be found"`, the refresh sets active, pid and enabled all to
unknown and parses nothing else, so `running()`, `enabled()` and `pid()` all
return unknown, regardless of the stdout content. -/
theorem c1_not_found_short_circuit (s : SystemCtl) (so se : String) (rc : Int)
    (hname : hasName s = true) (hse : strContains NOT_FOUND se = true) :
    ∃ s', updateStatus s (ExecOutcome.success so se rc) = Except.ok s'
      ∧ s'.result.active = none ∧ s'.result.pid = none ∧ s'.result.enabled = none
      ∧ enabled s' = none ∧ pid s' = none
      ∧ running s (ExecOutcome.success so se rc) = Except.ok (s', none) := by
  have hu : updateStatus s (ExecOutcome.success so se rc)
      = Except.ok { s with result :=
          { s.result with
              active := none
              pid := none
              enabled := none
              rawStdout := so
              rawStderr := se } } := by
    rw [updateStatus_ok_of_hasName _ _ hname]
    simp [execEffect, parseStatus, hse]
  refine ⟨_, hu, rfl, rfl, rfl, rfl, rfl, ?_⟩
  unfold running
  rw [hu]
  rfl

/-- C1 witness: a concrete state and a concrete not-found status outcome. -/
theorem c1_witness :
    hasName { serviceName := some "nginx", timeoutSecs := 10, result := initResult } = true
    ∧ strContains NOT_FOUND "Unit nginx.service could not be found." = true
    ∧ ∃ s', updateStatus { serviceName := some "nginx", timeoutSecs := 10, result := initResult }
          (ExecOutcome.success "  Active: active (running) since Mon" "Unit nginx.service could not be found." 4)
        = Except.ok s'
      ∧ s'.result.active = none ∧ s'.result.pid = none ∧ s'.result.enabled = none
      ∧ enabled s' = none ∧ pid s' = none
      ∧ running { serviceName := some "nginx", timeoutSecs := 10, result := initResult }
          (ExecOutcome.success "  Active: active (running) since Mon" "Unit nginx.service could not be found." 4)
        = Except.ok (s', none) :=
  ⟨by decide, by decide,
    c1_not_found_short_circuit _ "  Active: active (running) since Mon"
      "Unit nginx.service could not be found." 4 (by decide) (by decide)⟩

/-- C2 counterexample: a reachable state (built by constructing against a
running service and then observing it inactive) whose pid field is still
present while active is `some false` — the claimed invariant fails. -/
theorem c2_counterexample :
    ∃ s, Reachable s ∧ s.result.pid.isSome = true ∧ s.result.active ≠ some true := by
  have h1 : construct (some "nginx")
      (ExecOutcome.success "  Active: active (running) since Mon\n  Main PID: 1234 (nginx)" "" 0)
      = Except.ok
          { serviceName := some "nginx"
            timeoutSecs := 10
            result :=
              { active := some true
                pid := some 1234
                enabled := none
                rawStdout := "  Active: active (running) since Mon\n  Main PID: 1234 (nginx)"
                rawStderr := "" } } := by rfl
  have h2 : running
      { serviceName := some "nginx"
        timeoutSecs := 10
        result :=
          { active := some true
            pid := some 1234
            enabled := none
            rawStdout := "  Active: active (running) since Mon\n  Main PID: 1234 (nginx)"
            rawStderr := "" } }
      (ExecOutcome.success "  Active: inactive (dead)" "" 3)
      = Except.ok
          ({ serviceName := some "nginx"
             timeoutSecs := 10
             result :=
               { active := some false
                 pid := some 1234
                 enabled := none
                 rawStdout := "  Active: inactive (dead)"
                 rawStderr := "" } }, some false) := by rfl
  exact ⟨_, Reachable.ranRunning (Reachable.constructed h1) h2, rfl, by decide⟩

/-- C2 amended: within any single refresh, the pid field receives a (new)
value only when the active field is true in that same refresh; the global
invariant fails only because pid may retain a stale value from an earlier
refresh (and the not-found branch clears it). -/
theorem c2_amended_pid_fresh_only_when_active (s : SystemCtl) (out : ExecOutcome)
    (s' : SystemCtl) (h : updateStatus s out = Except.ok s')
    (hsome : s'.result.pid.isSome = true)
    (hchg : s'.result.pid ≠ s.result.pid) :
    s'.result.active = some true := by
  unfold updateStatus at h
  by_cases hn : hasName s = true
  · rw [if_pos hn] at h
    injection h with h2
    subst h2
    exact parseStatus_pid_new _ hsome (by rw [execEffect_pid]; exact hchg)
  · rw [if_neg hn] at h
    cases h

/-- The state reached by parsing running output with pid 77, used by the C2
amended witness. -/
def exRunning77 : SystemCtl :=
  { serviceName := some "nginx"
    timeoutSecs := 10
    result :=
      { active := some true
        pid := some 77
        enabled := none
        rawStdout := "  Active: active (running)\n  Main PID: 77 (nginx)"
        rawStderr := "" } }

theorem c2_amended_witness :
    updateStatus { serviceName := some "nginx", timeoutSecs := 10, result := initResult }
        (ExecOutcome.success "  Active: active (running)\n  Main PID: 77 (nginx)" "" 0)
      = Except.ok exRunning77
    ∧ exRunning77.result.pid.isSome = true
    ∧ exRunning77.result.pid
        ≠ ({ serviceName := some "nginx", timeoutSecs := 10, result := initResult } : SystemCtl).result.pid
    ∧ exRunning77.result.active = some true :=
  ⟨by rfl, by rfl, by decide,
    c2_amended_pid_fresh_only_when_active
      { serviceName := some "nginx", timeoutSecs := 10, result := initResult }
      (ExecOutcome.success "  Active: active (running)\n  Main PID: 77 (nginx)" "" 0)
      exRunning77 (by rfl) (by rfl) (by decide)⟩

/-- C3 counterexample: with current name `"alpha"`, setting `"beta"` returns
`some "beta"`, not the previous name `some "alpha"`. -/
theorem c3_counterexample :
    service_name { serviceName := some "alpha", timeoutSecs := 10, result := initResult }
        (some "beta") (ExecOutcome.success "" "" 0)
      = Except.ok ({ serviceName := some "beta", timeoutSecs := 10, result := initResult },
          some "beta")
    ∧ (some "beta" : Option String) ≠ some "alpha" :=
  ⟨by rfl, by decide⟩

/-- C3 amended: setting a non-empty name different from the current one
triggers a status refresh and returns the *new* name (the source returns
`self._service_name` after the assignment, not the saved old value). -/
theorem c3_set_new_name (s : SystemCtl) (n : String) (out : ExecOutcome)
    (hn : (n == "") = false) (hdiff : some n ≠ s.serviceName) :
    service_name s (some n) out
      = (updateStatus { s with serviceName := some n } out).map (fun s2 => (s2, some n)) := by
  have hh : hasName { s with serviceName := some n } = true := by
    simp [hasName, hn]
  have ht : truthyName (some n) = true := by simp [truthyName, hn]
  have hu := updateStatus_ok_of_hasName { s with serviceName := some n } out hh
  simp only [service_name]
  rw [if_pos ht, if_pos hdiff, hu]
  rfl

/-- C3 witness: renaming from `"alpha"` to `"beta"` follows the refresh path
and returns the new name. -/
theorem c3_witness :
    (("beta" == "") = false)
    ∧ ((some "beta" : Option String)
        ≠ ({ serviceName := some "alpha", timeoutSecs := 10, result := initResult } : SystemCtl).serviceName)
    ∧ service_name { serviceName := some "alpha", timeoutSecs := 10, result := initResult }
        (some "beta") ExecOutcome.timeout
      = (updateStatus { serviceName := some "beta", timeoutSecs := 10, result := initResult }
          ExecOutcome.timeout).map (fun s2 => (s2, some "beta")) :=
  ⟨by decide, by decide,
    c3_set_new_name { serviceName := some "alpha", timeoutSecs := 10, result := initResult }
      "beta" ExecOutcome.timeout (by decide) (by decide)⟩

/-- C4 counterexample: constructing with no service name does not succeed —
the constructor's unconditional status refresh raises the configuration
error immediately. -/
theorem c4_counterexample :
    construct none (ExecOutcome.success "  Active: active (running)" "" 0)
      = Except.error NO_SERVICE_NAME := by rfl

/-- C4 amended: construction with a `None` or empty name raises the
configuration error at once (naming cannot be deferred, because `__init__`
unconditionally calls `_update_status`); construction with a non-empty name
succeeds. -/
theorem c4_construct_needs_name (n : String) (out : ExecOutcome)
    (hn : (n == "") = false) :
    (∀ o, construct none o = Except.error NO_SERVICE_NAME)
    ∧ (∀ o, construct (some "") o = Except.error NO_SERVICE_NAME)
    ∧ ∃ s, construct (some n) out = Except.ok s := by
  refine ⟨fun o => rfl, fun o => rfl, ?_⟩
  exact ⟨_, updateStatus_ok_of_hasName _ _ (by simp [hasName, hn])⟩

/-- C4 witness: constructing with name `"nginx"` under a timing-out status
query still succeeds as a Python call. -/
theorem c4_witness :
    (("nginx" == "") = false)
    ∧ ((∀ o, construct none o = Except.error NO_SERVICE_NAME)
        ∧ (∀ o, construct (some "") o = Except.error NO_SERVICE_NAME)
        ∧ ∃ s, construct (some "nginx") ExecOutcome.timeout = Except.ok s) :=
  ⟨by decide, c4_construct_needs_name "nginx" ExecOutcome.timeout (by decide)⟩

/-- C5: with no not-found message in stderr, the active field is decided by
the three alternated branches in fixed priority, first match wins; when no
branch matches, the previous value of active is kept. -/
theorem c5_active_priority (s : SystemCtl) (so se : String) (rc : Int) (s' : SystemCtl)
    (hname : hasName s = true)
    (hse : strContains NOT_FOUND se = false)
    (h : updateStatus s (ExecOutcome.success so se rc) = Except.ok s') :
    (searchActiveRunning so.toList = true → s'.result.active = some true)
    ∧ (searchActiveRunning so.toList = false → searchMainPidExited so.toList = true →
        s'.result.active = some false)
    ∧ (searchActiveRunning so.toList = false → searchMainPidExited so.toList = false →
        searchInactiveDead so.toList = true → s'.result.active = some false)
    ∧ (searchActiveRunning so.toList = false → searchMainPidExited so.toList = false →
        searchInactiveDead so.toList = false → s'.result.active = s.result.active) := by
  rw [updateStatus_ok_of_hasName _ _ hname] at h
  injection h with h2
  subst h2
  have ha : (parseStatus (execEffect s.result (ExecOutcome.success so se rc)).1).active
      = decideActive s.result.active so.toList := by
    rw [parseStatus, if_neg (by simp [execEffect, hse])]
    rfl
  refine ⟨fun h1 => ?_, fun h1 h2 => ?_, fun h1 h2 h3 => ?_, fun h1 h2 h3 => ?_⟩ <;>
    show (parseStatus (execEffect s.result (ExecOutcome.success so se rc)).1).active = _ <;>
    rw [ha] <;> unfold decideActive
  · rw [if_pos h1]
  · rw [if_neg (by rw [h1]; decide), if_pos h2]
  · rw [if_neg (by rw [h1]; decide), if_neg (by rw [h2]; decide), if_pos h3]
  · rw [if_neg (by rw [h1]; decide), if_neg (by rw [h2]; decide), if_neg (by rw [h3]; decide)]

/-- C5 witness: a running sample, checked against the branch contract. -/
theorem c5_witness :
    hasName { serviceName := some "svc", timeoutSecs := 10, result := initResult } = true
    ∧ strContains NOT_FOUND "" = false
    ∧ updateStatus { serviceName := some "svc", timeoutSecs := 10, result := initResult }
        (ExecOutcome.success "  Active: active (running) since Tue" "" 0)
      = Except.ok
          { serviceName := some "svc"
            timeoutSecs := 10
            result :=
              { active := some true
                pid := none
                enabled := none
                rawStdout := "  Active: active (running) since Tue"
                rawStderr := "" } }
    ∧ ((searchActiveRunning "  Active: active (running) since Tue".toList = true →
        ({ serviceName := some "svc"
           timeoutSecs := 10
           result :=
             { active := some true
               pid := none
               enabled := none
               rawStdout := "  Active: active (running) since Tue"
               rawStderr := "" } } : SystemCtl).result.active = some true)
      ∧ (searchActiveRunning "  Active: active (running) since Tue".toList = false →
          searchMainPidExited "  Active: active (running) since Tue".toList = true →
          ({ serviceName := some "svc"
             timeoutSecs := 10
             result :=
               { active := some true
                 pid := none
                 enabled := none
                 rawStdout := "  Active: active (running) since Tue"
                 rawStderr := "" } } : SystemCtl).result.active = some false)
      ∧ (searchActiveRunning "  Active: active (running) since Tue".toList = false →
          searchMainPidExited "  Active: active (running) since Tue".toList = false →
          searchInactiveDead "  Active: active (running) since Tue".toList = true →
          ({ serviceName := some "svc"
             timeoutSecs := 10
             result :=
               { active := some true
                 pid := none
                 enabled := none
                 rawStdout := "  Active: active (running) since Tue"
                 rawStderr := "" } } : SystemCtl).result.active = some false)
      ∧ (searchActiveRunning "  Active: active (running) since Tue".toList = false →
          searchMainPidExited "  Active: active (running) since Tue".toList = false →
          searchInactiveDead "  Active: active (running) since Tue".toList = false →
          ({ serviceName := some "svc"
             timeoutSecs := 10
             result :=
               { active := some true
                 pid := none
                 enabled := none
                 rawStdout := "  Active: active (running) since Tue"
                 rawStderr := "" } } : SystemCtl).result.active
            = ({ serviceName := some "svc", timeoutSecs := 10, result := initResult } : SystemCtl).result.active)) :=
  ⟨by decide, by decide, by rfl,
    c5_active_priority { serviceName := some "svc", timeoutSecs := 10, result := initResult }
      "  Active: active (running) since Tue" "" 0
      { serviceName := some "svc"
        timeoutSecs := 10
        result :=
          { active := some true
            pid := none
            enabled := none
            rawStdout := "  Active: active (running) since Tue"
            rawStderr := "" } }
      (by decide) (by decide) (by rfl)⟩

/-- C6: with no not-found message in stderr, the pid field is set to the
integer captured by the Main-PID pattern exactly when the pattern matches and
the freshly decided active field is true; in every other case it keeps its
previous value. -/
theorem c6_pid_assignment (s : SystemCtl) (so se : String) (rc : Int) (s' : SystemCtl)
    (hname : hasName s = true)
    (hse : strContains NOT_FOUND se = false)
    (h : updateStatus s (ExecOutcome.success so se rc) = Except.ok s') :
    (∀ k, findMainPidNum so.toList = some k → s'.result.active = some true →
        s'.result.pid = some k)
    ∧ (findMainPidNum so.toList = none → s'.result.pid = s.result.pid)
    ∧ (s'.result.active ≠ some true → s'.result.pid = s.result.pid) := by
  rw [updateStatus_ok_of_hasName _ _ hname] at h
  injection h with h2
  subst h2
  have hnf : strContains NOT_FOUND
      ((execEffect s.result (ExecOutcome.success so se rc)).1).rawStderr = false := hse
  have ha : (parseStatus (execEffect s.result (ExecOutcome.success so se rc)).1).active
      = decideActive s.result.active so.toList := by
    rw [parseStatus, if_neg (by simp [hnf])]
    rfl
  have hp : (parseStatus (execEffect s.result (ExecOutcome.success so se rc)).1).pid
      = decidePid s.result.pid (decideActive s.result.active so.toList) so.toList := by
    rw [parseStatus, if_neg (by simp [hnf])]
    rfl
  refine ⟨fun k hk hact => ?_, fun hk => ?_, fun hact => ?_⟩
  · have hact' : decideActive s.result.active so.toList = some true := by
      rw [← ha]; exact hact
    show (parseStatus (execEffect s.result (ExecOutcome.success so se rc)).1).pid = some k
    rw [hp]
    unfold decidePid
    rw [hk]
    show (if decideActive s.result.active so.toList = some true
        then some k else s.result.pid) = some k
    rw [if_pos hact']
  · show (parseStatus (execEffect s.result (ExecOutcome.success so se rc)).1).pid = s.result.pid
    rw [hp]
    unfold decidePid
    rw [hk]
  · have hact' : ¬decideActive s.result.active so.toList = some true := by
      rw [← ha]; exact hact
    show (parseStatus (execEffect s.result (ExecOutcome.success so se rc)).1).pid = s.result.pid
    rw [hp]
    unfold decidePid
    cases hk : findMainPidNum so.toList with
    | none => rfl
    | some k =>
      show (if decideActive s.result.active so.toList = some true
          then some k else s.result.pid) = s.result.pid
      rw [if_neg hact']

/-- C6 witness: a running sample with Main PID 4321 assigns the pid; the
frame conjuncts hold vacuously. -/
theorem c6_witness :
    hasName { serviceName := some "svc", timeoutSecs := 10, result := initResult } = true
    ∧ strContains NOT_FOUND "" = false
    ∧ updateStatus { serviceName := some "svc", timeoutSecs := 10, result := initResult }
        (ExecOutcome.success "  Active: active (running)\n  Main PID: 4321 (svc)" "" 0)
      = Except.ok
          { serviceName := some "svc"
            timeoutSecs := 10
            result :=
              { active := some true
                pid := some 4321
                enabled := none
                rawStdout := "  Active: active (running)\n  Main PID: 4321 (svc)"
                rawStderr := "" } }
    ∧ ((∀ k, findMainPidNum "  Active: active (running)\n  Main PID: 4321 (svc)".toList = some k →
        ({ serviceName := some "svc"
           timeoutSecs := 10
           result :=
             { active := some true
               pid := some 4321
               enabled := none
               rawStdout := "  Active: active (running)\n  Main PID: 4321 (svc)"
               rawStderr := "" } } : SystemCtl).result.active = some true →
        ({ serviceName := some "svc"
           timeoutSecs := 10
           result :=
             { active := some true
               pid := some 4321
               enabled := none
               rawStdout := "  Active: active (running)\n  Main PID: 4321 (svc)"
               rawStderr := "" } } : SystemCtl).result.pid = some k)
      ∧ (findMainPidNum "  Active: active (running)\n  Main PID: 4321 (svc)".toList = none →
          ({ serviceName := some "svc"
             timeoutSecs := 10
             result :=
               { active := some true
                 pid := some 4321
                 enabled := none
                 rawStdout := "  Active: active (running)\n  Main PID: 4321 (svc)"
                 rawStderr := "" } } : SystemCtl).result.pid
            = ({ serviceName := some "svc", timeoutSecs := 10, result := initResult } : SystemCtl).result.pid)
      ∧ (({ serviceName := some "svc"
            timeoutSecs := 10
            result :=
              { active := some true
                pid := some 4321
                enabled := none
                rawStdout := "  Active: active (running)\n  Main PID: 4321 (svc)"
                rawStderr := "" } } : SystemCtl).result.active ≠ some true →
          ({ serviceName := some "svc"
             timeoutSecs := 10
             result :=
               { active := some true
                 pid := some 4321
                 enabled := none
                 rawStdout := "  Active: active (running)\n  Main PID: 4321 (svc)"
                 rawStderr := "" } } : SystemCtl).result.pid
            = ({ serviceName := some "svc", timeoutSecs := 10, result := initResult } : SystemCtl).result.pid)) :=
  ⟨by decide, by decide, by rfl,
    c6_pid_assignment { serviceName := some "svc", timeoutSecs := 10, result := initResult }
      "  Active: active (running)\n  Main PID: 4321 (svc)" "" 0
      { serviceName := some "svc"
        timeoutSecs := 10
        result :=
          { active := some true
            pid := some 4321
            enabled := none
            rawStdout := "  Active: active (running)\n  Main PID: 4321 (svc)"
            rawStderr := "" } }
      (by decide) (by decide) (by rfl)⟩

/-- C7: a timed-out execution stores empty stdout and the fixed timeout
message in stderr and yields exit code 5; any other execution failure stores
empty stdout and the failure's description and yields the same code 5; a
successful execution stores both decoded streams verbatim and yields the
process's real exit code — and `_run_systemctl` always returns exactly that
code to its caller. -/
theorem c7_execution_outcomes (r : Result) (s : SystemCtl) (arg : Arg) (f : ExecOutcome)
    (so se msg : String) (rc : Int) (hname : hasName s = true) :
    execEffect r ExecOutcome.timeout
      = ({ r with rawStdout := "", rawStderr := TIMEOUT_MSG }, ERROR_CODE)
    ∧ execEffect r (ExecOutcome.failure msg)
      = ({ r with rawStdout := "", rawStderr := msg }, ERROR_CODE)
    ∧ execEffect r (ExecOutcome.success so se rc)
      = ({ r with rawStdout := so, rawStderr := se }, rc)
    ∧ (∀ out, ∃ s', runSystemctl s arg out f
        = Except.ok (s', (execEffect s.result out).2)) := by
  refine ⟨rfl, rfl, rfl, fun out => ?_⟩
  cases out with
  | success so2 se2 rc2 =>
    have hh : hasName
        { s with result := { s.result with rawStdout := so2, rawStderr := se2 } } = true :=
      hname
    rw [show runSystemctl s arg (ExecOutcome.success so2 se2 rc2) f
        = (if arg = Arg.enable || arg = Arg.disable then
            (updateStatus
              { s with result := { s.result with rawStdout := so2, rawStderr := se2 } } f).map
                (fun s2 => (s2, rc2))
          else Except.ok
            ({ s with result := { s.result with rawStdout := so2, rawStderr := se2 } }, rc2))
      from rfl]
    by_cases harg : (arg = Arg.enable || arg = Arg.disable) = true
    · rw [if_pos harg, updateStatus_ok_of_hasName _ _ hh]
      exact ⟨_, rfl⟩
    · rw [if_neg harg]
      exact ⟨_, rfl⟩
  | timeout => exact ⟨_, rfl⟩
  | failure msg2 => exact ⟨_, rfl⟩

/-- C7 witness: concrete record, state and outcomes. -/
theorem c7_witness :
    hasName { serviceName := some "svc", timeoutSecs := 10, result := initResult } = true
    ∧ (execEffect initResult ExecOutcome.timeout
        = ({ initResult with rawStdout := "", rawStderr := TIMEOUT_MSG }, ERROR_CODE)
      ∧ execEffect initResult (ExecOutcome.failure "No such file or directory")
        = ({ initResult with rawStdout := "", rawStderr := "No such file or directory" }, ERROR_CODE)
      ∧ execEffect initResult (ExecOutcome.success "out text" "err text" 3)
        = ({ initResult with rawStdout := "out text", rawStderr := "err text" }, 3)
      ∧ (∀ out, ∃ s', runSystemctl
            { serviceName := some "svc", timeoutSecs := 10, result := initResult }
            Arg.status out ExecOutcome.timeout
          = Except.ok (s', (execEffect initResult out).2))) :=
  ⟨by decide,
    c7_execution_outcomes initResult
      { serviceName := some "svc", timeoutSecs := 10, result := initResult }
      Arg.status ExecOutcome.timeout "out text" "err text" "No such file or directory" 3
      (by decide)⟩

/-- C8: with no service name set, `start`, `stop`, `restart`, `enable` and
`disable` all raise the configuration error, independent of any execution
outcome (so no external invocation can influence or be influenced by the
call, and no state is produced). -/
theorem c8_ops_require_name (s : SystemCtl) (hname : hasName s = false) :
    (∀ out, start s out = Except.error NO_SERVICE_NAME)
    ∧ (∀ out, stop s out = Except.error NO_SERVICE_NAME)
    ∧ (∀ out, restart s out = Except.error NO_SERVICE_NAME)
    ∧ (∀ out f, enable s out f = Except.error NO_SERVICE_NAME)
    ∧ (∀ out f, disable s out f = Except.error NO_SERVICE_NAME) := by
  refine ⟨fun out => ?_, fun out => ?_, fun out => ?_, fun out f => ?_, fun out f => ?_⟩ <;>
    simp [start, stop, restart, enable, disable, hname]

/-- C8 witness: a handle whose name is Python `None`. -/
theorem c8_witness :
    hasName { serviceName := none, timeoutSecs := 10, result := initResult } = false
    ∧ ((∀ out, start { serviceName := none, timeoutSecs := 10, result := initResult } out
          = Except.error NO_SERVICE_NAME)
      ∧ (∀ out, stop { serviceName := none, timeoutSecs := 10, result := initResult } out
          = Except.error NO_SERVICE_NAME)
      ∧ (∀ out, restart { serviceName := none, timeoutSecs := 10, result := initResult } out
          = Except.error NO_SERVICE_NAME)
      ∧ (∀ out f, enable { serviceName := none, timeoutSecs := 10, result := initResult } out f
          = Except.error NO_SERVICE_NAME)
      ∧ (∀ out f, disable { serviceName := none, timeoutSecs := 10, result := initResult } out f
          = Except.error NO_SERVICE_NAME)) :=
  ⟨by decide,
    c8_ops_require_name { serviceName := none, timeoutSecs := 10, result := initResult }
      (by decide)⟩

/-- C9: passing the current name, the empty string, or no name at all to
`service_name` is a no-op: the state (including the whole status record) is
unchanged, no refresh consumes the execution outcome, and the current name is
returned. -/
theorem c9_noop_same_or_empty (s : SystemCtl) (n : String) (out : ExecOutcome)
    (hcur : s.serviceName = some n) :
    service_name s none out = Except.ok (s, s.serviceName)
    ∧ service_name s (some "") out = Except.ok (s, s.serviceName)
    ∧ ((n == "") = false → service_name s (some n) out = Except.ok (s, some n)) := by
  obtain ⟨sn, st, sr⟩ := s
  simp only at hcur
  subst hcur
  refine ⟨rfl, rfl, fun hn => ?_⟩
  have ht : truthyName (some n) = true := by simp [truthyName, hn]
  simp only [service_name]
  rw [if_pos ht, if_neg (by simp)]

/-- C9 witness: current name `"svc"`, all three no-op shapes. -/
theorem c9_witness :
    ({ serviceName := some "svc", timeoutSecs := 10, result := initResult } : SystemCtl).serviceName
      = some "svc"
    ∧ (service_name { serviceName := some "svc", timeoutSecs := 10, result := initResult }
        none ExecOutcome.timeout
      = Except.ok ({ serviceName := some "svc", timeoutSecs := 10, result := initResult },
          some "svc")
      ∧ service_name { serviceName := some "svc", timeoutSecs := 10, result := initResult }
          (some "") ExecOutcome.timeout
        = Except.ok ({ serviceName := some "svc", timeoutSecs := 10, result := initResult },
            some "svc")
      ∧ ((("svc" == "") = false →
          service_name { serviceName := some "svc", timeoutSecs := 10, result := initResult }
            (some "svc") ExecOutcome.timeout
          = Except.ok ({ serviceName := some "svc", timeoutSecs := 10, result := initResult },
              some "svc")))) :=
  ⟨by decide,
    c9_noop_same_or_empty { serviceName := some "svc", timeoutSecs := 10, result := initResult }
      "svc" ExecOutcome.timeout (by decide)⟩

/-- C10: a successful `enable`/`disable` triggers a follow-up status refresh,
so the stored streams end up being those of the follow-up status query while
the returned value is the enable/disable process's own exit code; on timeout
or spawn failure no refresh happens and active/pid/enabled keep their prior
values (only the raw streams are overwritten). -/
theorem c10_enable_disable_refresh (s : SystemCtl) (so se so2 se2 : String) (rc rc2 : Int)
    (hname : hasName s = true) :
    (∃ s2, enable s (ExecOutcome.success so se rc) (ExecOutcome.success so2 se2 rc2)
        = Except.ok (s2, rc)
      ∧ s2.result.rawStdout = so2 ∧ s2.result.rawStderr = se2
      ∧ s2.result = parseStatus { s.result with rawStdout := so2, rawStderr := se2 })
    ∧ (∃ s2, disable s (ExecOutcome.success so se rc) (ExecOutcome.success so2 se2 rc2)
        = Except.ok (s2, rc)
      ∧ s2.result.rawStdout = so2 ∧ s2.result.rawStderr = se2
      ∧ s2.result = parseStatus { s.result with rawStdout := so2, rawStderr := se2 })
    ∧ (∀ f, enable s ExecOutcome.timeout f
        = Except.ok ({ s with result :=
            { s.result with rawStdout := "", rawStderr := TIMEOUT_MSG } }, ERROR_CODE))
    ∧ (∀ f msg, enable s (ExecOutcome.failure msg) f
        = Except.ok ({ s with result :=
            { s.result with rawStdout := "", rawStderr := msg } }, ERROR_CODE))
    ∧ (∀ f, disable s ExecOutcome.timeout f
        = Except.ok ({ s with result :=
            { s.result with rawStdout := "", rawStderr := TIMEOUT_MSG } }, ERROR_CODE))
    ∧ (∀ f msg, disable s (ExecOutcome.failure msg) f
        = Except.ok ({ s with result :=
            { s.result with rawStdout := "", rawStderr := msg } }, ERROR_CODE)) := by
  have hh : hasName
      { s with result := { s.result with rawStdout := so, rawStderr := se } } = true := hname
  have he : enable s (ExecOutcome.success so se rc) (ExecOutcome.success so2 se2 rc2)
      = Except.ok ({ s with result := parseStatus { s.result with rawStdout := so2, rawStderr := se2 } }, rc) := by
    show (if hasName s = true then
        runSystemctl s Arg.enable (ExecOutcome.success so se rc)
          (ExecOutcome.success so2 se2 rc2)
      else Except.error NO_SERVICE_NAME) = _
    rw [if_pos hname]
    show (updateStatus { s with result := { s.result with rawStdout := so, rawStderr := se } }
        (ExecOutcome.success so2 se2 rc2)).map (fun s2 => (s2, rc)) = _
    rw [updateStatus_ok_of_hasName _ _ hh]
    rfl
  have hd : disable s (ExecOutcome.success so se rc) (ExecOutcome.success so2 se2 rc2)
      = Except.ok ({ s with result := parseStatus { s.result with rawStdout := so2, rawStderr := se2 } }, rc) := by
    show (if hasName s = true then
        runSystemctl s Arg.disable (ExecOutcome.success so se rc)
          (ExecOutcome.success so2 se2 rc2)
      else Except.error NO_SERVICE_NAME) = _
    rw [if_pos hname]
    show (updateStatus { s with result := { s.result with rawStdout := so, rawStderr := se } }
        (ExecOutcome.success so2 se2 rc2)).map (fun s2 => (s2, rc)) = _
    rw [updateStatus_ok_of_hasName _ _ hh]
    rfl
  refine ⟨⟨_, he, parseStatus_rawStdout _, parseStatus_rawStderr _, rfl⟩,
    ⟨_, hd, parseStatus_rawStdout _, parseStatus_rawStderr _, rfl⟩,
    fun f => ?_, fun f msg => ?_, fun f => ?_, fun f msg => ?_⟩ <;>
  · show (if hasName s = true then _ else _) = _
    rw [if_pos hname]
    rfl

/-- C10 witness: a concrete `enable` call whose process succeeds with exit
code 0 while the follow-up status query returns different streams, plus a
timed-out `enable` call. -/
theorem c10_witness :
    hasName { serviceName := some "svc", timeoutSecs := 10, result := initResult } = true
    ∧ (∃ s2, enable { serviceName := some "svc", timeoutSecs := 10, result := initResult }
          (ExecOutcome.success "enable stdout" "enable stderr" 0)
          (ExecOutcome.success "   Loaded: loaded (/x; enabled; preset)" "follow stderr" 3)
        = Except.ok (s2, 0)
      ∧ s2.result.rawStdout = "   Loaded: loaded (/x; enabled; preset)"
      ∧ s2.result.rawStderr = "follow stderr"
      ∧ s2.result = parseStatus { initResult with rawStdout := "   Loaded: loaded (/x; enabled; preset)", rawStderr := "follow stderr" })
    ∧ (∀ f, enable { serviceName := some "svc", timeoutSecs := 10, result := initResult }
          ExecOutcome.timeout f
        = Except.ok ({ serviceName := some "svc", timeoutSecs := 10, result := { initResult with rawStdout := "", rawStderr := TIMEOUT_MSG } }, ERROR_CODE)) :=
  ⟨by decide,
    (c10_enable_disable_refresh
      { serviceName := some "svc", timeoutSecs := 10, result := initResult }
      "enable stdout" "enable stderr" "   Loaded: loaded (/x; enabled; preset)" "follow stderr"
      0 3 (by decide)).1,
    (c10_enable_disable_refresh
      { serviceName := some "svc", timeoutSecs := 10, result := initResult }
      "enable stdout" "enable stderr" "   Loaded: loaded (/x; enabled; preset)" "follow stderr"
      0 3 (by decide)).2.2.1⟩

end SystemCtlSpec
